import Mathlib

/-!
# Verification of the EPOP JWT / password authentication subsystem

Shallow embedding of the authentication core of the epop-platform-starter
repository: password hashing and verification (`PasswordService`), the JWT
codec and session manager (`JWTService`), the request authentication
middleware (`withAuth`), and the login / password-reset flows, together
with proofs about the spec's testable properties.

Modelling conventions:
* JavaScript strings are modelled as `List Char` in the password module
  (where parsing on characters matters) and as `String` elsewhere.
* Timestamps (`Date` values) are natural numbers counting seconds.
* The PBKDF2 key-derivation function and the SHA-256 digest are modelled
  as ideal (collision-free) one-way functions: an injective encoding
  stands in for the real derived key / digest.  This is the standard
  idealisation for cryptographic primitives, which are external to the
  repository (Node's `crypto` module).
* `jsonwebtoken` signing is deterministic (HS256), and the compact JWS
  encoding is injective, so a signed token string is modelled by the
  record of its signing inputs (`SignedToken`); string equality of tokens
  is structure equality.  `jwt.verify` checks the signature first and
  then the registered claims, treating `now ≥ exp` as expired.
* The database is a record of lists of rows; each `await db...` statement
  of the source is one atomic step on that state.  Fallible operations
  return `DB × Except e α` so that state changes committed before a throw
  are preserved (the source uses no transactions).
-/

namespace Epop

/-! ## Password hashing (`src/lib/auth/password.ts`, `PasswordService`) -/

/-- One character of the escape encoding used by the ideal PBKDF2 model:
`：` and the escape character `z` are escaped so that the image never
contains a colon and the encoding is injective. -/
def escChar (c : Char) : List Char :=
  if c = ':' then ['z', 'c'] else if c = 'z' then ['z', 'z'] else [c]

/-- Injective, colon-free encoding of a character list. -/
def esc : List Char → List Char
  | [] => []
  | c :: cs => escChar c ++ esc cs

theorem esc_no_colon (s : List Char) : ':' ∉ esc s := by
  induction s with
  | nil => simp [esc]
  | cons c cs ih =>
    simp only [esc, List.mem_append]
    rintro (h | h)
    · unfold escChar at h
      split at h
      · simp at h
      · split at h
        · simp at h
        · simp at h
          next hc _ => exact hc (h ▸ rfl)
    · exact ih h

/-- Decoder for `esc`; a left inverse on the image of `esc`. -/
def unesc : List Char → List Char
  | [] => []
  | [c] => [c]
  | c :: d :: rest =>
    if c = 'z' then (if d = 'c' then ':' else 'z') :: unesc rest
    else c :: unesc (d :: rest)

theorem esc_ne_nil (c : Char) (cs : List Char) : esc (c :: cs) ≠ [] := by
  simp only [esc, escChar]
  split
  · simp
  · split <;> simp

theorem unesc_esc (s : List Char) : unesc (esc s) = s := by
  induction s with
  | nil => rfl
  | cons c cs ih =>
    by_cases h1 : c = ':'
    · subst h1
      simp [esc, escChar, unesc, ih]
    · by_cases h2 : c = 'z'
      · subst h2
        simp [esc, escChar, unesc, ih]
      · have hesc : esc (c :: cs) = c :: esc cs := by
          simp [esc, escChar, h1, h2]
        rw [hesc]
        cases hcs : esc cs with
        | nil =>
          cases cs with
          | nil => simp [unesc]
          | cons d ds => exact absurd hcs (esc_ne_nil d ds)
        | cons d rest =>
          rw [show unesc (c :: d :: rest) = c :: unesc (d :: rest) from by
            simp [unesc, h2]]
          rw [← hcs, ih]

theorem esc_injective {s t : List Char} (h : esc s = esc t) : s = t := by
  have := congrArg unesc h
  simpa [unesc_esc] using this

/-- Decimal digit character for `d % 10`. -/
def digitChar (d : Nat) : Char := Char.ofNat (48 + d % 10)

/-- Decimal rendering of a natural number (fuel-based, fuel = the number
itself, which always suffices since `n / 10 < n` for `n > 0`). -/
def natCharsAux : Nat → Nat → List Char
  | 0, n => [digitChar n]
  | fuel + 1, n => if n < 10 then [digitChar n] else natCharsAux fuel (n / 10) ++ [digitChar n]

/-- Decimal rendering of a natural number, as produced by JavaScript
string conversion of the iteration count. -/
def natChars (n : Nat) : List Char := natCharsAux n n

/-- Ideal PBKDF2 model (`crypto.pbkdf2(password, salt, iterations, keylen,
'sha512', ...)` followed by `.toString('hex')`): an injective, colon-free
encoding of the inputs stands in for the real derived key.  Injectivity in
the password (for a fixed salt and iteration count) models the
collision-freeness of the real KDF; the absence of `：` in the output
models the fact that a hex digest contains only `[0-9a-f]`. -/
def pbkdf2Hex (password salt : List Char) (iterations keylen : Nat) : List Char :=
  esc password ++ ['y'] ++ esc salt ++ ['y'] ++ natChars iterations ++ ['y'] ++ natChars keylen

/-- Splitting a character list at every colon, as JavaScript
`storedHash.split(':')`: `n` colons yield `n + 1` (possibly empty) parts. -/
def splitColon : List Char → List (List Char)
  | [] => [[]]
  | c :: cs =>
    if c = ':' then [] :: splitColon cs
    else
      match splitColon cs with
      | [] => [[c]]
      | p :: ps => (c :: p) :: ps

theorem splitColon_ne_nil (l : List Char) : splitColon l ≠ [] := by
  cases l with
  | nil => simp [splitColon]
  | cons c cs =>
    simp only [splitColon]
    split
    · simp
    · split <;> simp

theorem splitColon_no_colon {a : List Char} (h : ':' ∉ a) : splitColon a = [a] := by
  induction a with
  | nil => rfl
  | cons c cs ih =>
    simp only [List.mem_cons, not_or] at h
    have hc : ¬c = ':' := fun hcc => h.1 hcc.symm
    simp only [splitColon, if_neg hc, ih h.2]

theorem splitColon_append {a rest : List Char} (h : ':' ∉ a) :
    splitColon (a ++ ':' :: rest) = a :: splitColon rest := by
  induction a with
  | nil => simp [splitColon]
  | cons c cs ih =>
    simp only [List.mem_cons, not_or] at h
    have hc : ¬c = ':' := fun hcc => h.1 hcc.symm
    simp only [List.cons_append, splitColon, List.append_eq, if_neg hc, ih h.2]

theorem pbkdf2Hex_no_colon (p s : List Char) :
    ':' ∉ pbkdf2Hex p s 100000 64 := by
  intro h
  unfold pbkdf2Hex at h
  simp only [List.append_assoc, List.mem_append, List.mem_singleton] at h
  rcases h with h | h | h | h | h | h | h
  · exact esc_no_colon p h
  · exact absurd h (by decide)
  · exact esc_no_colon s h
  · exact absurd h (by decide)
  · exact absurd h (by decide)
  · exact absurd h (by decide)
  · exact absurd h (by decide)

/-- JavaScript `parseInt(s, 10)` on an optional string (`none` models the
`undefined` produced by destructuring a too-short array): skips leading
whitespace, accepts an optional sign, then reads a maximal digit run;
yields `none` (NaN) when no digit is found. -/
def parseIntJS : Option (List Char) → Option Int
  | none => none
  | some s =>
    let s1 := s.dropWhile fun c => c.isWhitespace
    let core : List Char → Option Nat := fun l =>
      let ds := l.takeWhile fun c => c.isDigit
      if ds.isEmpty then none
      else some (ds.foldl (fun a c => 10 * a + (c.toNat - 48)) 0)
    match s1 with
    | '-' :: rest => (core rest).map fun n => -(n : Int)
    | '+' :: rest => (core rest).map fun n => (n : Int)
    | _ => (core s1).map fun n => (n : Int)

namespace PasswordService

/-- Errors thrown by `PasswordService.hashPassword` on out-of-policy input. -/
inductive HashError
  | tooShort
  | tooLong
  deriving DecidableEq, Repr

/-- Model of `PasswordService.hashPassword`: rejects passwords shorter than 8 or
longer than 128 characters, then derives a key from a fresh random salt
(the salt — a 32-character hex string in the source — is passed as an
explicit parameter standing for the output of `crypto.randomBytes`) and
stores `salt:derivedKeyHex:iterations` with 100000 iterations. -/
def hashPassword (password salt : List Char) : Except HashError (List Char) :=
  if password.length < 8 then .error .tooShort
  else if 128 < password.length then .error .tooLong
  else .ok (salt ++ ':' :: pbkdf2Hex password salt 100000 64 ++ ':' :: natChars 100000)

/-- Result of `PasswordService.verifyPassword`.  `rejectedPromise` models
an `async` function returning a promise that rejects: `crypto.pbkdf2`
throws synchronously on an invalid iteration count, the `Promise`
constructor converts that throw into a rejection, and the surrounding
`try/catch` (being synchronous) cannot intercept it. -/
inductive VerifyOutcome
  | ok (b : Bool)
  | rejectedPromise
  deriving DecidableEq, Repr

/-- Model of `PasswordService.verifyPassword`: empty password or stored hash give
`false`; otherwise the stored digest is split at colons into
`[salt, hash, iterations]` (missing fields are `undefined`, modelled as
`none`), the iteration count is `parseInt`ed, and the derived key is
recomputed and compared.  Node validates the iteration count (an integer
between 1 and 2^31 - 1) synchronously and throws otherwise. -/
def verifyPassword (password storedHash : List Char) : VerifyOutcome :=
  if password.isEmpty || storedHash.isEmpty then .ok false
  else
    let parts := splitColon storedHash
    let salt := (parts.get? 0).getD []
    match parseIntJS (parts.get? 2) with
    | none => .rejectedPromise
    | some iterCount =>
      if iterCount < 1 ∨ 2147483647 < iterCount then .rejectedPromise
      else
        .ok (match parts.get? 1 with
          | none => false
          | some h => pbkdf2Hex password salt iterCount.toNat 64 = h)

end PasswordService

theorem pbkdf2Hex_inj_password {p q s : List Char} {i k : Nat}
    (h : pbkdf2Hex p s i k = pbkdf2Hex q s i k) : p = q := by
  unfold pbkdf2Hex at h
  simp only [List.append_assoc] at h
  exact esc_injective (List.append_cancel_right h)

/-! ## Token codec (`src/lib/auth/jwt.ts`, `JWTService` signing half) -/

/-- Secrets as configured by the module-level constants (the `.env`
fallback defaults of the source). -/
def JWT_SECRET : String := "your-secret-key-change-in-production"

def JWT_REFRESH_SECRET : String := "your-refresh-secret-change-in-production"

/-- Access token lifetime: `'15m'`, in seconds. -/
def JWT_EXPIRES_IN : Nat := 15 * 60

/-- Refresh token lifetime: `'7d'`, in seconds. -/
def JWT_REFRESH_EXPIRES_IN : Nat := 7 * 24 * 60 * 60

/-- The decoded payload of a signed token: either the access claims
`{userId, email, role}` or the refresh marker `{type: 'refresh'}`. -/
inductive TokenPayload
  | access (userId email role : String)
  | refreshMarker
  deriving DecidableEq, Repr

/-- A token produced by `jwt.sign`: HS256 signing is deterministic and the
compact JWS encoding is injective, so the token string is faithfully
modelled by the record of its signing inputs.  The `secret` field records
which key signed the token; signature verification against key `k`
succeeds exactly when `secret = k` (ideal, collision-free MAC). -/
structure SignedToken where
  payload : TokenPayload
  iss : Option String
  aud : Option String
  iat : Nat
  exp : Nat
  secret : String
  deriving DecidableEq, Repr

/-- A string presented for verification: either a well-formed signed token
or a string that does not decode as a JWT at all. -/
inductive TokenInput
  | malformed (raw : String)
  | wellFormed (st : SignedToken)
  deriving DecidableEq, Repr

/-- SHA-256 digest of a token string (`hashToken` in the source), modelled
as an ideal injective digest: the stored value determines the raw token. -/
structure TokenHash where
  val : TokenInput
  deriving DecidableEq, Repr

def hashToken (t : TokenInput) : TokenHash := ⟨t⟩

/-- Classification of `jwt.verify` failures as re-thrown by the service:
`TokenExpiredError` maps to the `expired` messages and every other
`JsonWebTokenError` to the `invalid` messages. -/
inductive VerifyError
  | expired
  | invalid
  deriving DecidableEq, Repr

namespace JWTService

/-- Model of `JWTService.generateAccessToken`: signs `{userId, email, role}` with
the access secret, issuer `epop-platform`, audience `epop-client`, 15
minute lifetime. -/
def generateAccessToken (userId email role : String) (now : Nat) : SignedToken :=
  { payload := .access userId email role
    iss := some "epop-platform"
    aud := some "epop-client"
    iat := now
    exp := now + JWT_EXPIRES_IN
    secret := JWT_SECRET }

/-- Model of `JWTService.generateRefreshToken`: signs the constant payload
`{type: 'refresh'}` with the refresh secret and a 7 day lifetime.  No
issuer/audience options are passed.  Note the token is entirely
determined by the signing second `now`. -/
def generateRefreshToken (now : Nat) : SignedToken :=
  { payload := .refreshMarker
    iss := none
    aud := none
    iat := now
    exp := now + JWT_REFRESH_EXPIRES_IN
    secret := JWT_REFRESH_SECRET }

/-- Model of `JWTService.verifyAccessToken` via `jwt.verify(token, JWT_SECRET,
{issuer, audience})`: the library verifies the signature first, then the
claims in order `exp` (expired when `now ≥ exp`), `aud`, `iss`.  A
signature or decode failure is a `JsonWebTokenError` (→ `invalid`), an
elapsed `exp` a `TokenExpiredError` (→ `expired`). -/
def verifyAccessToken (t : TokenInput) (now : Nat) : Except VerifyError TokenPayload :=
  match t with
  | .malformed _ => .error .invalid
  | .wellFormed st =>
    if st.secret ≠ JWT_SECRET then .error .invalid
    else if st.exp ≤ now then .error .expired
    else if st.aud ≠ some "epop-client" then .error .invalid
    else if st.iss ≠ some "epop-platform" then .error .invalid
    else .ok st.payload

/-- Model of `JWTService.verifyRefreshToken` via `jwt.verify(token,
JWT_REFRESH_SECRET)` with no claim options: signature first, then `exp`. -/
def verifyRefreshToken (t : TokenInput) (now : Nat) : Except VerifyError TokenPayload :=
  match t with
  | .malformed _ => .error .invalid
  | .wellFormed st =>
    if st.secret ≠ JWT_REFRESH_SECRET then .error .invalid
    else if st.exp ≤ now then .error .expired
    else .ok st.payload

end JWTService

/-! ## Persistent state (`src/db/schema/auth.ts` plus the
`0001_add_jwt_and_password_reset_tokens` migration) -/

/-- A row of the `users` table (the columns the auth subsystem reads or
writes; the password digest uses the `List Char` representation of the
password module). -/
structure UserRow where
  id : String
  email : String
  passwordHash : List Char
  name : String
  role : String
  status : String
  lastLoginAt : Option Nat
  passwordResetToken : Option String
  passwordResetExpires : Option Nat
  failedLoginAttempts : Nat
  lockedUntil : Option Nat
  deriving DecidableEq, Repr

/-- A row of the `refresh_tokens` table.  `isActive` defaults to `true`
on insert; both `token` and `token_hash` carry unique constraints. -/
structure RefreshTokenRow where
  id : Nat
  userId : String
  token : TokenInput
  tokenHash : TokenHash
  deviceFingerprint : Option String
  expiresAt : Nat
  isActive : Bool
  lastUsedAt : Option Nat
  createdAt : Nat
  ipAddress : Option String
  userAgent : Option String
  deriving DecidableEq, Repr

/-- A row of the append-only `audit_logs` table (the structured `metadata`
json is not modelled; no claim depends on it). -/
structure AuditRow where
  actorId : Option String
  action : String
  targetResource : Option String
  targetId : Option String
  ipAddress : Option String
  userAgent : Option String
  success : Bool
  errorMessage : Option String
  deriving DecidableEq, Repr

/-- The database state seen by the auth subsystem.  `nextRowId` stands in
for the row-id default generator. -/
structure DB where
  users : List UserRow
  refreshTokens : List RefreshTokenRow
  auditLogs : List AuditRow
  nextRowId : Nat
  deriving DecidableEq, Repr

/-- Model of `select().from(users).where(eq(users.id, uid)).limit(1)`. -/
def lookupUserById (db : DB) (uid : String) : Option UserRow :=
  db.users.find? fun u => u.id == uid

/-- Model of `select().from(users).where(eq(users.email, e)).limit(1)`. -/
def lookupUserByEmail (db : DB) (e : String) : Option UserRow :=
  db.users.find? fun u => u.email == e

/-- The value returned once per issuance / rotation. -/
structure TokenPair where
  accessToken : SignedToken
  refreshToken : SignedToken
  expiresIn : Nat
  deriving DecidableEq, Repr

/-- Typed counterparts of the error messages thrown by `JWTService`. -/
inductive JwtError
  | userNotFound
  | invalidOrExpiredRefresh
  | notFoundOrInactive
  | refreshExpired
  | uniqueViolation
  | tokenNotFound
  deriving DecidableEq, Repr

namespace JWTService

/-- The insert of a refresh-token row violates a unique constraint when an
existing row already holds the same raw token or the same token hash
(`refresh_tokens.token` is declared `.unique()` and the migration adds a
unique index on `token_hash`). -/
def insertConflict (db : DB) (rt : SignedToken) : Bool :=
  db.refreshTokens.any fun r =>
    r.token == .wellFormed rt || r.tokenHash == hashToken (.wellFormed rt)

/-- Model of `JWTService.createTokenPair`: loads the live user projection (fails
with `User not found` when absent), signs a fresh access and refresh
token, inserts the refresh token row (hash, 7-day expiry from now,
`isActive` defaulting to true), appends a `TOKEN_REFRESH_CREATED` audit
row and returns `{accessToken, refreshToken, expiresIn: 15 * 60}`. -/
def createTokenPair (db : DB) (now : Nat) (userId : String)
    (deviceFingerprint ipAddress userAgent : Option String) :
    DB × Except JwtError TokenPair :=
  match lookupUserById db userId with
  | none => (db, .error .userNotFound)
  | some u =>
    let accessToken := generateAccessToken u.id u.email u.role now
    let refreshToken := generateRefreshToken now
    let expiresAt := now + 7 * 86400
    let refreshTokenHash := hashToken (.wellFormed refreshToken)
    if insertConflict db refreshToken then (db, .error .uniqueViolation)
    else
      let newRow : RefreshTokenRow :=
        { id := db.nextRowId
          userId := u.id
          token := .wellFormed refreshToken
          tokenHash := refreshTokenHash
          deviceFingerprint := deviceFingerprint
          expiresAt := expiresAt
          isActive := true
          lastUsedAt := none
          createdAt := now
          ipAddress := ipAddress
          userAgent := userAgent }
      let auditRow : AuditRow :=
        { actorId := some userId
          action := "TOKEN_REFRESH_CREATED"
          targetResource := some "refresh_token"
          targetId := none
          ipAddress := ipAddress
          userAgent := userAgent
          success := true
          errorMessage := none }
      ({ db with
          refreshTokens := db.refreshTokens ++ [newRow]
          auditLogs := db.auditLogs ++ [auditRow]
          nextRowId := db.nextRowId + 1 },
        .ok { accessToken := accessToken, refreshToken := refreshToken,
              expiresIn := 15 * 60 })

/-- The `SELECT ... WHERE tokenHash = h AND isActive = true LIMIT 1` step
of `refreshTokens`. -/
def findActiveByHash (db : DB) (h : TokenHash) : Option RefreshTokenRow :=
  db.refreshTokens.find? fun r => r.tokenHash == h && r.isActive

/-- The `UPDATE refresh_tokens SET isActive = false WHERE id = rid` step
(expired-record path; no `lastUsedAt`). -/
def deactivateById (db : DB) (rid : Nat) : DB :=
  { db with
    refreshTokens := db.refreshTokens.map fun r =>
      if r.id == rid then { r with isActive := false } else r }

/-- The `UPDATE refresh_tokens SET isActive = false, lastUsedAt = now
WHERE id = rid` step (rotation path).  Note the update is keyed on the id
alone — it is not conditional on the row still being active, and the
affected row count is not inspected. -/
def deactivateAndMarkUsed (db : DB) (rid : Nat) (now : Nat) : DB :=
  { db with
    refreshTokens := db.refreshTokens.map fun r =>
      if r.id == rid then { r with isActive := false, lastUsedAt := some now } else r }

/-- The body of `JWTService.refreshTokens` after the codec check and the
active-record lookup: expiry check against the stored record, then
unconditional deactivation, `createTokenPair` for the record's user, and
the `TOKEN_REFRESHED` audit row. -/
def refreshAfterLookup (db : DB) (now : Nat) (tokenRecord : RefreshTokenRow)
    (deviceFingerprint ipAddress userAgent : Option String) :
    DB × Except JwtError TokenPair :=
  if tokenRecord.expiresAt < now then
    (deactivateById db tokenRecord.id, .error .refreshExpired)
  else
    let db1 := deactivateAndMarkUsed db tokenRecord.id now
    match createTokenPair db1 now tokenRecord.userId deviceFingerprint ipAddress userAgent with
    | (db2, .error e) => (db2, .error e)
    | (db2, .ok pair) =>
      let auditRow : AuditRow :=
        { actorId := some tokenRecord.userId
          action := "TOKEN_REFRESHED"
          targetResource := some "refresh_token"
          targetId := none
          ipAddress := ipAddress
          userAgent := userAgent
          success := true
          errorMessage := none }
      ({ db2 with auditLogs := db2.auditLogs ++ [auditRow] }, .ok pair)

/-- Model of `JWTService.refreshTokens`: codec verification first (`Invalid or
expired refresh token` on any codec failure, before any storage access),
then hash lookup of an active record (`Refresh token not found or
inactive` when absent), then `refreshAfterLookup`. -/
def refreshTokens (db : DB) (now : Nat) (t : TokenInput)
    (deviceFingerprint ipAddress userAgent : Option String) :
    DB × Except JwtError TokenPair :=
  match verifyRefreshToken t now with
  | .error _ => (db, .error .invalidOrExpiredRefresh)
  | .ok _ =>
    match findActiveByHash db (hashToken t) with
    | none => (db, .error .notFoundOrInactive)
    | some tokenRecord =>
      refreshAfterLookup db now tokenRecord deviceFingerprint ipAddress userAgent

/-- Model of `JWTService.revokeAllRefreshTokens`: `UPDATE refresh_tokens SET
isActive = false WHERE userId = uid`. -/
def revokeAllRefreshTokens (db : DB) (uid : String) : DB :=
  { db with
    refreshTokens := db.refreshTokens.map fun r =>
      if r.userId == uid then { r with isActive := false } else r }

/-- One concrete interleaving of two concurrent `refreshTokens` calls
presenting the same token: both `SELECT`s read the initial state, then
call A performs its remaining steps, then call B performs its remaining
steps on A's resulting state.  Each step is an atomic database operation
exactly as in `refreshTokens`; only the scheduling differs. -/
def racingRefreshTokens (db : DB) (t : TokenInput) (nA nB : Nat)
    (deviceFingerprint ipAddress userAgent : Option String) :
    DB × Except JwtError TokenPair × Except JwtError TokenPair :=
  match verifyRefreshToken t nA, verifyRefreshToken t nB with
  | .error _, _ =>
    let (db1, resB) := refreshTokens db nB t deviceFingerprint ipAddress userAgent
    (db1, .error .invalidOrExpiredRefresh, resB)
  | .ok _, .error _ =>
    let (db1, resA) := refreshTokens db nA t deviceFingerprint ipAddress userAgent
    (db1, resA, .error .invalidOrExpiredRefresh)
  | .ok _, .ok _ =>
    match findActiveByHash db (hashToken t), findActiveByHash db (hashToken t) with
    | none, _ => (db, .error .notFoundOrInactive, .error .notFoundOrInactive)
    | some _, none => (db, .error .notFoundOrInactive, .error .notFoundOrInactive)
    | some recA, some recB =>
      let (dbA, resA) := refreshAfterLookup db nA recA deviceFingerprint ipAddress userAgent
      let (dbB, resB) := refreshAfterLookup dbA nB recB deviceFingerprint ipAddress userAgent
      (dbB, resA, resB)

end JWTService

namespace PasswordService

/-- Model of `PasswordService.isUserLocked`: true when `lockedUntil` lies in the
future, or — independently of `lockedUntil` — when the stored
`failedLoginAttempts` counter has reached 5. -/
def isUserLocked (db : DB) (uid : String) (now : Nat) : Bool :=
  match lookupUserById db uid with
  | none => false
  | some u =>
    let currentlyLocked : Bool :=
      match u.lockedUntil with
      | some l => decide (now < l)
      | none => false
    if currentlyLocked then true
    else 5 ≤ u.failedLoginAttempts

/-- Model of `PasswordService.recordFailedLogin`: increments the counter, sets
`lockedUntil = now + 30 minutes` once the new count reaches 5 (below the
threshold the drizzle update receives `lockedUntil: undefined`, which
leaves the stored column unchanged), and appends a `LOGIN_FAILED` audit
row. -/
def recordFailedLogin (db : DB) (uid : String) (now : Nat)
    (ipAddress userAgent : Option String) : DB :=
  match lookupUserById db uid with
  | none => db
  | some u =>
    let newFailedAttempts := u.failedLoginAttempts + 1
    let newLockedUntil : Option Nat :=
      if 5 ≤ newFailedAttempts then some (now + 30 * 60) else u.lockedUntil
    let auditRow : AuditRow :=
      { actorId := some uid
        action := "LOGIN_FAILED"
        targetResource := some "user"
        targetId := none
        ipAddress := ipAddress
        userAgent := userAgent
        success := false
        errorMessage := some "Failed login attempt" }
    { db with
      users := db.users.map fun v =>
        if v.id == uid then
          { v with failedLoginAttempts := newFailedAttempts, lockedUntil := newLockedUntil }
        else v
      auditLogs := db.auditLogs ++ [auditRow] }

/-- Model of `PasswordService.resetFailedLoginAttempts`: zeroes the counter, clears
the lock, stamps `lastLoginAt` and appends a `LOGIN_SUCCESS` audit row. -/
def resetFailedLoginAttempts (db : DB) (uid : String) (now : Nat)
    (ipAddress userAgent : Option String) : DB :=
  let auditRow : AuditRow :=
    { actorId := some uid
      action := "LOGIN_SUCCESS"
      targetResource := some "user"
      targetId := none
      ipAddress := ipAddress
      userAgent := userAgent
      success := true
      errorMessage := none }
  { db with
    users := db.users.map fun v =>
      if v.id == uid then
        { v with failedLoginAttempts := 0, lockedUntil := none, lastLoginAt := some now }
      else v
    auditLogs := db.auditLogs ++ [auditRow] }

/-- Typed counterparts of the errors thrown by `resetPassword`. -/
inductive ResetError
  | invalidToken
  | expiredToken
  | weakPassword
  deriving DecidableEq, Repr

/-- Model of `PasswordService.resetPassword`: looks the user up by the stored
`passwordResetToken` column, checks `passwordResetExpires`, hashes the new
password (the fresh random salt is an explicit parameter), then updates
the user — clearing the reset token and expiry and the lockout state —
appends a `PASSWORD_RESET` audit row and revokes all refresh tokens of
the user. -/
def resetPassword (db : DB) (now : Nat) (resetToken : String)
    (newPassword salt : List Char) (ipAddress userAgent : Option String) :
    DB × Except ResetError Unit :=
  match db.users.find? fun u => u.passwordResetToken == some resetToken with
  | none => (db, .error .invalidToken)
  | some u =>
    match u.passwordResetExpires with
    | none => (db, .error .expiredToken)
    | some e =>
      if e < now then (db, .error .expiredToken)
      else
        match hashPassword newPassword salt with
        | .error _ => (db, .error .weakPassword)
        | .ok newPasswordHash =>
          let auditRow : AuditRow :=
            { actorId := some u.id
              action := "PASSWORD_RESET"
              targetResource := some "user"
              targetId := none
              ipAddress := ipAddress
              userAgent := userAgent
              success := true
              errorMessage := none }
          let db1 : DB :=
            { db with
              users := db.users.map fun v =>
                if v.id == u.id then
                  { v with
                    passwordHash := newPasswordHash
                    passwordResetToken := none
                    passwordResetExpires := none
                    failedLoginAttempts := 0
                    lockedUntil := none }
                else v
              auditLogs := db.auditLogs ++ [auditRow] }
          (JWTService.revokeAllRefreshTokens db1 u.id, .ok ())

end PasswordService

/-! ## Login route (`src/app/api/auth/login/route.ts`, the handler inside
the rate-limit / CORS wrappers, which the spec treats as external
pre-check gates) -/

/-- Outcome of a login request (the typed content of the JSON responses). -/
inductive LoginOutcome
  | invalidCredentials
  | accountLocked
  | accountInactive
  | serverError
  | success (pair : TokenPair)
  deriving DecidableEq, Repr

/-- The login handler: user lookup by (lowercased) email, lockout check,
password verification (a failure records a failed attempt), account
status check, counter reset, token issuance, and the final `lastLoginAt`
update.  A rejected password-verification promise or a token-issuance
failure surfaces as the generic 500 response. -/
def login (db : DB) (now : Nat) (email : String) (password : List Char)
    (ipAddress userAgent : Option String) : DB × LoginOutcome :=
  match lookupUserByEmail db email with
  | none => (db, .invalidCredentials)
  | some user =>
    if PasswordService.isUserLocked db user.id now then (db, .accountLocked)
    else
      match PasswordService.verifyPassword password user.passwordHash with
      | .rejectedPromise => (db, .serverError)
      | .ok false =>
        (PasswordService.recordFailedLogin db user.id now ipAddress userAgent,
          .invalidCredentials)
      | .ok true =>
        if user.status ≠ "ACTIVE" then (db, .accountInactive)
        else
          let db1 := PasswordService.resetFailedLoginAttempts db user.id now ipAddress userAgent
          match JWTService.createTokenPair db1 now user.id userAgent ipAddress userAgent with
          | (db2, .error _) => (db2, .serverError)
          | (db2, .ok pair) =>
            let db3 : DB :=
              { db2 with
                users := db2.users.map fun v =>
                  if v.id == user.id then { v with lastLoginAt := some now } else v }
            (db3, .success pair)

/-! ## Auth middleware (`src/lib/auth/middleware.ts`, `withAuth`) -/

/-- The `Authorization` header: either a well-formed `Bearer <token>`
value or some other string. -/
inductive AuthHeader
  | bearer (t : TokenInput)
  | other (raw : String)
  deriving DecidableEq, Repr

/-- The request surface `withAuth` consumes: the `Authorization` header
and the `access_token` cookie. -/
structure Request where
  authHeader : Option AuthHeader
  accessTokenCookie : Option TokenInput
  deriving DecidableEq, Repr

/-- Model of `extractTokenFromRequest`: `Bearer` header first, cookie fallback. -/
def extractTokenFromRequest (req : Request) : Option TokenInput :=
  match req.authHeader with
  | some (.bearer t) => some t
  | _ => req.accessTokenCookie

/-- The identity attached to the request on success. -/
structure AuthedUser where
  id : String
  email : String
  role : String
  deriving DecidableEq, Repr

/-- Result of the middleware: a rejection response (status and message)
with no identity attached, or the wrapped handler invoked with the
attached identity. -/
inductive AuthOutcome
  | rejected (status : Nat) (message : String)
  | handled (user : AuthedUser)
  deriving DecidableEq, Repr

def AuthOutcome.isHandled : AuthOutcome → Bool
  | .handled _ => true
  | .rejected _ _ => false

/-- The `userId` the middleware reads off the verified payload.  A
refresh-shaped payload (possible only for a token signed with the access
secret and the right issuer/audience, which the service never produces)
yields JavaScript `undefined`; the resulting user lookup compares against
no id. -/
def payloadUserId : TokenPayload → String
  | .access userId _ _ => userId
  | .refreshMarker => "undefined"

/-- Model of `withAuth`: extracts the token (401 when absent), verifies it, then
re-loads the user row and rejects with 401 when the user no longer exists
or 403 when `status ≠ 'ACTIVE'`; otherwise attaches `{id, email, role}`
and calls the wrapped handler.  In the catch branch the `TokenExpiredError`
message contains `'expired'` and maps to the `TOKEN_EXPIRED` response; the
message `'Invalid access token'` contains neither of the (case-sensitive)
substrings `'invalid'` and `'verification failed'` that the handler
checks, so signature failures fall through to the generic
`Authentication failed` 401 response. -/
def withAuth (db : DB) (now : Nat) (req : Request) : AuthOutcome :=
  match extractTokenFromRequest req with
  | none => .rejected 401 "Authentication required"
  | some t =>
    match JWTService.verifyAccessToken t now with
    | .error .expired => .rejected 401 "Token expired"
    | .error .invalid => .rejected 401 "Authentication failed"
    | .ok payload =>
      match lookupUserById db (payloadUserId payload) with
      | none => .rejected 401 "User not found"
      | some u =>
        if u.status ≠ "ACTIVE" then .rejected 403 "Account is not active"
        else .handled { id := u.id, email := u.email, role := u.role }

/-! ## Invariants and concrete states used by the theorems -/

/-- The unique index on `refresh_tokens.token_hash`: pairwise distinct
hashes across the stored rows.  Every state produced by the service
satisfies it. -/
def UniqueHashes (db : DB) : Prop :=
  db.refreshTokens.Pairwise fun r s => r.tokenHash ≠ s.tokenHash

/-- At most one user holds a given password-reset token (reset tokens are
generated from `crypto.randomUUID`, one per user). -/
def UniqueResetHolder (db : DB) (t : String) : Prop :=
  ∀ u ∈ db.users, ∀ v ∈ db.users,
    u.passwordResetToken = some t → v.passwordResetToken = some t → u.id = v.id

/-- A concrete password of length 8 satisfying the policy bounds. -/
def demoPassword : List Char := "Secret1!".toList

/-- A concrete colon-free salt (standing for `crypto.randomBytes(16)`
rendered as hex). -/
def demoSalt : List Char := "ab".toList

/-- The stored digest for `demoPassword`. -/
def demoPasswordHash : List Char :=
  match PasswordService.hashPassword demoPassword demoSalt with
  | .ok d => d
  | .error _ => []

/-- A live, initially unlocked user. -/
def demoUser : UserRow :=
  { id := "u1"
    email := "user@example.com"
    passwordHash := demoPasswordHash
    name := "User One"
    role := "USER"
    status := "ACTIVE"
    lastLoginAt := none
    passwordResetToken := none
    passwordResetExpires := none
    failedLoginAttempts := 0
    lockedUntil := none }

/-- Initial state: one user, no tokens, empty audit log. -/
def demoDb : DB :=
  { users := [demoUser], refreshTokens := [], auditLogs := [], nextRowId := 0 }

/-- The state after five consecutive failed login attempts (wrong
password) at seconds 0..4. -/
def lockedDb : DB :=
  (List.range 5).foldl
    (fun d n => (login d n "user@example.com" "WrongPass9?".toList none none).1)
    demoDb

/-- A refresh token issued at second 0 (its stored row is `demoTokenRow`). -/
def demoRefreshToken : TokenInput := .wellFormed (JWTService.generateRefreshToken 0)

/-- The stored row for `demoRefreshToken`: active, 7-day expiry. -/
def demoTokenRow : RefreshTokenRow :=
  { id := 0
    userId := "u1"
    token := demoRefreshToken
    tokenHash := hashToken demoRefreshToken
    deviceFingerprint := none
    expiresAt := 604800
    isActive := true
    lastUsedAt := none
    createdAt := 0
    ipAddress := none
    userAgent := none }

/-- State holding `demoUser` and the active row of `demoRefreshToken`. -/
def demoTokenDb : DB :=
  { users := [demoUser], refreshTokens := [demoTokenRow], auditLogs := [], nextRowId := 1 }

/-! ## Theorems -/

deriving instance DecidableEq for Except

/-- C2, counterexample.  The claim states that `verifyAccessToken` fails
with the `Expired` classification exactly when `now > exp`, independent of
signature validity.  Both halves fail on the code: (a) a token signed with
the wrong secret and long past its expiry is classified `invalid`, not
`expired`, because `jwt.verify` checks the signature before the claims;
(b) at `now = exp` the library already classifies the token as expired
(`clockTimestamp >= exp`) although `now > exp` is false. -/
theorem claim2_counterexample :
    (JWTService.verifyAccessToken
        (.wellFormed
          { payload := .access "u" "e" "USER", iss := some "epop-platform",
            aud := some "epop-client", iat := 0, exp := 10,
            secret := "wrong-secret" }) 11
      = .error .invalid ∧ (10 : Nat) < 11) ∧
    (JWTService.verifyAccessToken
        (.wellFormed
          { payload := .access "u" "e" "USER", iss := some "epop-platform",
            aud := some "epop-client", iat := 0, exp := 10,
            secret := JWT_SECRET }) 10
      = .error .expired ∧ ¬(10 : Nat) < 10) := by
  exact ⟨⟨by decide, by decide⟩, ⟨by decide, by decide⟩⟩

/-- C2, amended.  Verification of a well-formed token fails with `Expired`
exactly when the signature verifies (the token was signed with the access
secret) and `now ≥ exp`; when the signature does not verify the result is
the `Invalid` classification, regardless of expiry. -/
theorem claim2_amended (st : SignedToken) (now : Nat) :
    (JWTService.verifyAccessToken (.wellFormed st) now = .error .expired ↔
      st.secret = JWT_SECRET ∧ st.exp ≤ now) ∧
    (st.secret ≠ JWT_SECRET →
      JWTService.verifyAccessToken (.wellFormed st) now = .error .invalid) := by
  constructor
  · constructor
    · intro h
      by_cases h1 : st.secret = JWT_SECRET
      · by_cases h2 : st.exp ≤ now
        · exact ⟨h1, h2⟩
        · exfalso
          simp only [JWTService.verifyAccessToken, h1, h2] at h
          simp at h
          split at h <;> [skip; simp_all]
          split at h <;> simp_all
      · exfalso
        simp only [JWTService.verifyAccessToken] at h
        rw [if_pos h1] at h
        simp at h
    · rintro ⟨h1, h2⟩
      simp [JWTService.verifyAccessToken, h1, h2]
  · intro h
    simp only [JWTService.verifyAccessToken]
    rw [if_pos h]

/-- Witness for `claim2_amended` at a concrete token. -/
theorem claim2_amended_witness :
    JWTService.verifyAccessToken
      (.wellFormed
        { payload := .access "u" "e" "USER", iss := some "epop-platform",
          aud := some "epop-client", iat := 0, exp := 1000,
          secret := "wrong-secret" }) 0
      = .error .invalid :=
  (claim2_amended
    { payload := .access "u" "e" "USER", iss := some "epop-platform",
      aud := some "epop-client", iat := 0, exp := 1000,
      secret := "wrong-secret" } 0).2 (by decide)

/-- C5, failing evaluation.  The claim states `verifyPassword` is total
and returns `false` on any parse failure of the stored digest.  On the
digest `"abc"` (no colon, so the destructured `iterations` field is
`undefined` and `parseInt` yields NaN) `crypto.pbkdf2` throws inside the
`Promise` executor, which surfaces as a rejected promise that the
synchronous `try/catch` cannot intercept: the call rejects instead of
returning `false`. -/
theorem claim5_rejected_promise :
    PasswordService.verifyPassword "password123".toList "abc".toList
        = .rejectedPromise ∧
    PasswordService.verifyPassword "password123".toList "abc".toList
        ≠ .ok false := by
  exact ⟨by decide, by decide⟩

/-- C1, counterexample.  The claim states that after the one successful
`refreshTokens(t, ...)` call, every subsequent sequential call with the
same `t` fails with the NotFoundOrInactive-class error.  But the service
verifies the token's own signed expiry first and fails fast with
`Invalid or expired refresh token` before any storage lookup: a
subsequent call made once `now` has reached `t`'s `exp` (here, 7 days
after issuance) fails with that error class instead. -/
theorem claim1_counterexample :
    (JWTService.refreshTokens demoTokenDb 1 demoRefreshToken none none none).2.isOk
        = true ∧
    (JWTService.refreshTokens
        (JWTService.refreshTokens demoTokenDb 1 demoRefreshToken none none none).1
        604800 demoRefreshToken none none none).2
      = .error .invalidOrExpiredRefresh ∧
    JwtError.invalidOrExpiredRefresh ≠ JwtError.notFoundOrInactive := by
  exact ⟨by decide, by decide, by decide⟩

/-- C9, failing evaluation.  The claim states a double-refresh race must
result in exactly one success because the deactivation update only
succeeds if the row was still active.  In the source the deactivation is
`UPDATE ... WHERE id = record.id` — unconditional on `isActive`, with the
affected row count never inspected — so in the interleaving where both
calls run their `SELECT` before either `UPDATE`, both calls succeed and
return sibling token pairs descending from the same single-use token. -/
theorem claim9_double_success :
    (JWTService.racingRefreshTokens demoTokenDb demoRefreshToken 1 2
        none none none).2.1.isOk = true ∧
    (JWTService.racingRefreshTokens demoTokenDb demoRefreshToken 1 2
        none none none).2.2.isOk = true := by
  exact ⟨by decide, by decide⟩

/-- C3, failing evaluation.  After five failed attempts at seconds 0..4
the stored state is `failedLoginAttempts = 5` and `lockedUntil = 1804`
(the 30-minute window ends at second 1804).  A 6th attempt with the
correct password during the window fails with `AccountLocked` — that part
of the claim holds.  But at second 10000, long after the lock window has
elapsed, a login with the correct password still fails with
`AccountLocked`: `isUserLocked` returns true whenever the stored
`failedLoginAttempts` counter is at least 5, regardless of `lockedUntil`,
and the counter is only reset by a successful login — which the lock
itself prevents.  The lock is therefore permanent, contradicting the
claim (and the source's own comment "Lock the account after 5 failed
attempts for 30 minutes"). -/
theorem claim3_lock_never_expires :
    ((lookupUserById lockedDb "u1").map (fun u => u.failedLoginAttempts)
        = some 5) ∧
    ((lookupUserById lockedDb "u1").map (fun u => u.lockedUntil)
        = some (some 1804)) ∧
    (login lockedDb 100 "user@example.com" demoPassword none none).2
        = .accountLocked ∧
    (login lockedDb 10000 "user@example.com" demoPassword none none).2
        = .accountLocked ∧
    PasswordService.isUserLocked lockedDb "u1" 10000 = true := by
  exact ⟨by decide, by decide, by decide, by decide, by decide⟩

/-- C10.  `revokeAllRefreshTokens(u)` touches only the refresh-token rows
whose `userId` equals `u`, and on those it changes only the `isActive`
field: the users table, the audit log, rows of other users, and every
other field of `u`'s rows are unchanged (row for row, in order). -/
theorem claim10_revoke_frame (db : DB) (uid : String) :
    (JWTService.revokeAllRefreshTokens db uid).users = db.users ∧
    (JWTService.revokeAllRefreshTokens db uid).auditLogs = db.auditLogs ∧
    (JWTService.revokeAllRefreshTokens db uid).nextRowId = db.nextRowId ∧
    List.Forall₂
      (fun r r2 =>
        (r.userId ≠ uid → r2 = r) ∧
        (r.userId = uid → r2 = { r with isActive := false }))
      db.refreshTokens
      (JWTService.revokeAllRefreshTokens db uid).refreshTokens := by
  refine ⟨rfl, rfl, rfl, ?_⟩
  simp only [JWTService.revokeAllRefreshTokens]
  induction db.refreshTokens with
  | nil => exact List.Forall₂.nil
  | cons r rs ih =>
    refine List.Forall₂.cons ⟨?_, ?_⟩ ih
    · intro hne
      simp [beq_eq_false_iff_ne.mpr hne]
    · intro heq
      simp [heq]

/-- Witness for `claim10_revoke_frame` (it quantifies over implications
inside the row-wise relation): evaluated on the concrete token state. -/
theorem claim10_revoke_frame_witness :
    (JWTService.revokeAllRefreshTokens demoTokenDb "u1").users
        = demoTokenDb.users ∧
    (JWTService.revokeAllRefreshTokens demoTokenDb "u1").refreshTokens
        = [{ demoTokenRow with isActive := false }] := by
  have h := claim10_revoke_frame demoTokenDb "u1"
  refine ⟨h.1, ?_⟩
  have h4 := h.2.2.2
  cases h4 with
  | cons hrel htail =>
    exact congrArg (fun x => [x]) (hrel.2 rfl)

/-- On a request whose extracted token verifies to `payload`, `withAuth`
reduces to the live-user re-check. -/
theorem withAuth_of_verified (db : DB) (now : Nat) (req : Request)
    (t : TokenInput) (payload : TokenPayload)
    (hext : extractTokenFromRequest req = some t)
    (hver : JWTService.verifyAccessToken t now = .ok payload) :
    withAuth db now req =
      match lookupUserById db (payloadUserId payload) with
      | none => .rejected 401 "User not found"
      | some u =>
        if u.status ≠ "ACTIVE" then .rejected 403 "Account is not active"
        else .handled { id := u.id, email := u.email, role := u.role } := by
  unfold withAuth
  rw [hext]
  show (match JWTService.verifyAccessToken t now with
        | .error .expired => AuthOutcome.rejected 401 "Token expired"
        | .error .invalid => AuthOutcome.rejected 401 "Authentication failed"
        | .ok payload =>
          match lookupUserById db (payloadUserId payload) with
          | none => AuthOutcome.rejected 401 "User not found"
          | some u =>
            if u.status ≠ "ACTIVE" then AuthOutcome.rejected 403 "Account is not active"
            else AuthOutcome.handled { id := u.id, email := u.email, role := u.role }) = _
  rw [hver]

/-- C8.  For every request carrying an access token that verifies, the
middleware re-loads the user's current row: the wrapped handler is called
(with identity `{id, email, role}` from the live row) exactly when the
user exists and has status `ACTIVE`; a missing user yields the 401
`User not found` rejection and a non-ACTIVE status the 403
`Account is not active` rejection, in both cases with no identity
attached. -/
theorem claim8_middleware_live_check (db : DB) (now : Nat) (req : Request)
    (t : TokenInput) (payload : TokenPayload)
    (hext : extractTokenFromRequest req = some t)
    (hver : JWTService.verifyAccessToken t now = .ok payload) :
    ((withAuth db now req).isHandled = true ↔
      ∃ u, lookupUserById db (payloadUserId payload) = some u ∧
        u.status = "ACTIVE") ∧
    (∀ u, lookupUserById db (payloadUserId payload) = some u →
      u.status = "ACTIVE" →
      withAuth db now req = .handled { id := u.id, email := u.email, role := u.role }) ∧
    (∀ u, lookupUserById db (payloadUserId payload) = some u →
      u.status ≠ "ACTIVE" →
      withAuth db now req = .rejected 403 "Account is not active") ∧
    (lookupUserById db (payloadUserId payload) = none →
      withAuth db now req = .rejected 401 "User not found") := by
  rw [withAuth_of_verified db now req t payload hext hver]
  cases hu : lookupUserById db (payloadUserId payload) with
  | none =>
    refine ⟨?_, ?_, ?_, fun _ => rfl⟩
    · simp [AuthOutcome.isHandled]
    · intro u hu2
      exact absurd hu2 (by simp)
    · intro u hu2
      exact absurd hu2 (by simp)
  | some u =>
    by_cases hs : u.status = "ACTIVE"
    · refine ⟨?_, ?_, ?_, ?_⟩
      · constructor
        · intro _
          exact ⟨u, rfl, hs⟩
        · intro _
          simp [AuthOutcome.isHandled, hs]
      · intro v hv hvs
        injection hv with h
        subst h
        simp [hs]
      · intro v hv hvs
        injection hv with h
        subst h
        exact absurd hs hvs
      · intro hnone
        exact absurd hnone (by simp)
    · refine ⟨?_, ?_, ?_, ?_⟩
      · constructor
        · intro hfalse
          simp [AuthOutcome.isHandled, hs] at hfalse
        · rintro ⟨v, hv, hvs⟩
          injection hv with h
          subst h
          exact absurd hvs hs
      · intro v hv hvs
        injection hv with h
        subst h
        exact absurd hvs hs
      · intro v hv hvs
        injection hv with h
        subst h
        simp [hs]
      · intro hnone
        exact absurd hnone (by simp)

/-- Witness for `claim8_middleware_live_check`: a request bearing a valid
access token for the live user of `demoDb` is handled with that identity. -/
theorem claim8_middleware_live_check_witness :
    withAuth demoDb 0
        { authHeader :=
            some (.bearer (.wellFormed
              (JWTService.generateAccessToken "u1" "user@example.com" "USER" 0)))
          accessTokenCookie := none }
      = .handled { id := "u1", email := "user@example.com", role := "USER" } := by
  have h := claim8_middleware_live_check demoDb 0
    { authHeader :=
        some (.bearer (.wellFormed
          (JWTService.generateAccessToken "u1" "user@example.com" "USER" 0)))
      accessTokenCookie := none }
    (.wellFormed (JWTService.generateAccessToken "u1" "user@example.com" "USER" 0))
    (.access "u1" "user@example.com" "USER")
    rfl (by decide)
  exact h.2.1 demoUser (by decide) rfl

/-- C4.  For every password meeting the length policy (8–128 characters,
enforced by `hashPassword`) and every colon-free salt (as produced by the
hex rendering of `crypto.randomBytes`), the digest has the self-describing
`salt:derivedKeyHex:iterations` shape, verification of the same password
succeeds, and verification of any other password fails. -/
theorem claim4_password_roundtrip (p salt d : List Char)
    (hsalt : ':' ∉ salt)
    (hhash : PasswordService.hashPassword p salt = .ok d) :
    d = salt ++ ':' :: pbkdf2Hex p salt 100000 64 ++ ':' :: natChars 100000 ∧
    PasswordService.verifyPassword p d = .ok true ∧
    ∀ q, q ≠ p → PasswordService.verifyPassword q d = .ok false := by
  unfold PasswordService.hashPassword at hhash
  split at hhash
  · exact absurd hhash (by simp)
  split at hhash
  · exact absurd hhash (by simp)
  next hlen8 hlen128 =>
  injection hhash with hd
  have hdval : d = salt ++ ':' ::
      (pbkdf2Hex p salt 100000 64 ++ ':' :: natChars 100000) := by
    rw [← hd]
    simp
  have hsplit : splitColon d
      = [salt, pbkdf2Hex p salt 100000 64, natChars 100000] := by
    rw [hdval, splitColon_append hsalt,
      splitColon_append (pbkdf2Hex_no_colon p salt),
      splitColon_no_colon (show ':' ∉ natChars 100000 by decide)]
  have hdne : d.isEmpty = false := by
    rw [hdval]
    cases salt <;> rfl
  have hpne : p.isEmpty = false := by
    cases p with
    | nil => exact absurd (by decide) hlen8
    | cons c cs => rfl
  have hparse : parseIntJS (some (natChars 100000)) = some 100000 := by decide
  have hbound : ¬((100000 : Int) < 1 ∨ (2147483647 : Int) < 100000) := by decide
  refine ⟨hd.symm, ?_, ?_⟩
  · unfold PasswordService.verifyPassword
    rw [hpne, hdne]
    simp only [Bool.or_self, Bool.false_eq_true, if_false, hsplit]
    simp only [List.get?, hparse, if_neg hbound]
    simp
  · intro q hq
    cases hqe : q.isEmpty with
    | true =>
      unfold PasswordService.verifyPassword
      rw [hqe]
      simp
    | false =>
      unfold PasswordService.verifyPassword
      rw [hqe, hdne]
      simp only [Bool.or_self, Bool.false_eq_true, if_false, hsplit]
      simp only [List.get?, hparse, if_neg hbound]
      have hne : pbkdf2Hex q salt 100000 64 ≠ pbkdf2Hex p salt 100000 64 :=
        fun hcoll => hq (pbkdf2Hex_inj_password hcoll)
      simp [hne]

/-- Witness for `claim4_password_roundtrip` on a concrete password, salt
and mismatching password. -/
theorem claim4_password_roundtrip_witness :
    PasswordService.verifyPassword demoPassword demoPasswordHash = .ok true ∧
    PasswordService.verifyPassword "OtherPass5$".toList demoPasswordHash
      = .ok false := by
  have h := claim4_password_roundtrip demoPassword demoSalt demoPasswordHash
    (by decide) (by decide)
  exact ⟨h.2.1, h.2.2 _ (by decide)⟩

/-- C7.  `createTokenPair` fails with `UserNotFound` (leaving the state
unchanged) exactly when no user with the given id exists; otherwise —
whenever the fresh token does not collide with a stored row, which the
unique constraints would reject — it appends a refresh-token row that is
active, carries the digest of the new refresh token and expires exactly
7 days from now, and returns `{accessToken, refreshToken, expiresIn}`
with `expiresIn = 900` seconds. -/
theorem claim7_create_token_pair (db : DB) (now : Nat) (uid : String)
    (dfp ip ua : Option String) :
    (lookupUserById db uid = none →
      JWTService.createTokenPair db now uid dfp ip ua = (db, .error .userNotFound)) ∧
    (∀ u, lookupUserById db uid = some u →
      JWTService.insertConflict db (JWTService.generateRefreshToken now) = false →
      ∃ newRow,
        (JWTService.createTokenPair db now uid dfp ip ua).1.refreshTokens
            = db.refreshTokens ++ [newRow] ∧
        newRow.userId = u.id ∧
        newRow.tokenHash
            = hashToken (.wellFormed (JWTService.generateRefreshToken now)) ∧
        newRow.expiresAt = now + 7 * 86400 ∧
        newRow.isActive = true ∧
        (JWTService.createTokenPair db now uid dfp ip ua).2
            = .ok { accessToken :=
                      JWTService.generateAccessToken u.id u.email u.role now,
                    refreshToken := JWTService.generateRefreshToken now,
                    expiresIn := 900 }) := by
  constructor
  · intro h
    simp only [JWTService.createTokenPair, h]
  · intro u hu hc
    simp only [JWTService.createTokenPair, hu, hc]
    exact ⟨_, rfl, rfl, rfl, rfl, rfl, rfl⟩

/-- Witness for `claim7_create_token_pair`: both branches evaluated on the
concrete single-user state. -/
theorem claim7_create_token_pair_witness :
    (JWTService.createTokenPair demoDb 5 "missing" none none none)
        = (demoDb, .error .userNotFound) ∧
    (JWTService.createTokenPair demoDb 5 "u1" none none none).2
        = .ok { accessToken :=
                  JWTService.generateAccessToken "u1" "user@example.com" "USER" 5,
                refreshToken := JWTService.generateRefreshToken 5,
                expiresIn := 900 } := by
  have h1 := (claim7_create_token_pair demoDb 5 "missing" none none none).1 (by decide)
  obtain ⟨row, _, _, _, _, _, hres⟩ :=
    (claim7_create_token_pair demoDb 5 "u1" none none none).2 demoUser
      (by decide) (by decide)
  exact ⟨h1, hres⟩

/-- C6.  A password-reset token authorizes at most one reset: when at most
one user holds the token (reset tokens are generated per user from a
random UUID), a successful `resetPassword(T, newPass)` clears the stored
token, so any later `resetPassword(T, anotherPass)` — at any time, with
any new password — fails with the invalid-token error and leaves the
state unchanged. -/
theorem claim6_reset_single_use (db : DB) (now : Nat) (T : String)
    (p1 s1 : List Char) (ip ua : Option String) (db1 : DB)
    (huniq : UniqueResetHolder db T)
    (hrun : PasswordService.resetPassword db now T p1 s1 ip ua = (db1, .ok ())) :
    ∀ (now2 : Nat) (p2 s2 : List Char) (ip2 ua2 : Option String),
      PasswordService.resetPassword db1 now2 T p2 s2 ip2 ua2
        = (db1, .error .invalidToken) := by
  intro now2 p2 s2 ip2 ua2
  unfold PasswordService.resetPassword at hrun
  split at hrun
  · simp at hrun
  next u hfind =>
    split at hrun
    · simp at hrun
    next e hexp =>
      split at hrun
      · simp at hrun
      next hnow =>
        split at hrun
        · simp at hrun
        next newHash hhash =>
          have hdb1 := congrArg Prod.fst hrun
          simp only at hdb1
          have hu_mem := List.mem_of_find?_eq_some hfind
          have hu_pred := List.find?_some hfind
          have hfindnone :
              db1.users.find? (fun v => v.passwordResetToken == some T) = none := by
            rw [List.find?_eq_none]
            intro x hx
            have hxusers : db1.users = db.users.map fun v =>
                if v.id == u.id then
                  { v with
                    passwordHash := newHash
                    passwordResetToken := none
                    passwordResetExpires := none
                    failedLoginAttempts := 0
                    lockedUntil := none }
                else v := by
              rw [← hdb1]
              rfl
            rw [hxusers] at hx
            obtain ⟨v, hv, rfl⟩ := List.mem_map.mp hx
            by_cases hid : (v.id == u.id) = true
            · simp [hid]
            · simp only [Bool.not_eq_true] at hid
              simp only [hid, Bool.false_eq_true, if_false]
              intro hvt
              rw [beq_iff_eq] at hvt
              have hupred : u.passwordResetToken = some T := by
                have := hu_pred
                rwa [beq_iff_eq] at this
              have hideq := huniq v hv u hu_mem hvt hupred
              rw [hideq] at hid
              simp at hid
          unfold PasswordService.resetPassword
          rw [hfindnone]

/-- Witness for `claim6_reset_single_use`: a concrete user holding reset
token `"T1"` resets once; the replay fails with the invalid-token error. -/
theorem claim6_reset_single_use_witness :
    PasswordService.resetPassword
        (PasswordService.resetPassword
          { users := [{ demoUser with
                        passwordResetToken := some "T1",
                        passwordResetExpires := some 3600 }],
            refreshTokens := [], auditLogs := [], nextRowId := 0 }
          10 "T1" "NewSecret2@".toList "cd".toList none none).1
        20 "T1" "NewSecret3#".toList "ef".toList none none
      = ((PasswordService.resetPassword
          { users := [{ demoUser with
                        passwordResetToken := some "T1",
                        passwordResetExpires := some 3600 }],
            refreshTokens := [], auditLogs := [], nextRowId := 0 }
          10 "T1" "NewSecret2@".toList "cd".toList none none).1,
        .error .invalidToken) := by
  apply claim6_reset_single_use
    { users := [{ demoUser with
                  passwordResetToken := some "T1",
                  passwordResetExpires := some 3600 }],
      refreshTokens := [], auditLogs := [], nextRowId := 0 }
    10 "T1" "NewSecret2@".toList "cd".toList none none
  · intro a ha b hb hat hbt
    simp only [List.mem_singleton] at ha hb
    rw [ha, hb]
  · rfl

/-- C1, amended.  Under the unique-hash index invariant, at most one
sequential `refreshTokens(t, ...)` call succeeds: after a successful call
the resulting state refuses every later call presenting the same `t`, and
leaves the state unchanged in doing so (so all subsequent calls fail the
same way).  The failure is the NotFoundOrInactive-class error whenever the
codec still accepts `t` (`now < exp` of the signed token); once `t`'s own
signed expiry has passed, the call fails fast with the
`Invalid or expired refresh token` error instead, before any storage
lookup. -/
theorem claim1_amended_rotation (db : DB) (n1 : Nat) (st : SignedToken)
    (dfp ip ua : Option String) (db1 : DB) (pair : TokenPair)
    (huniq : UniqueHashes db)
    (hrun : JWTService.refreshTokens db n1 (.wellFormed st) dfp ip ua
      = (db1, .ok pair)) :
    ∀ (n2 : Nat) (dfp2 ip2 ua2 : Option String),
      JWTService.refreshTokens db1 n2 (.wellFormed st) dfp2 ip2 ua2
        = (db1, .error (if st.exp ≤ n2 then JwtError.invalidOrExpiredRefresh
                        else JwtError.notFoundOrInactive)) := by
  intro n2 dfp2 ip2 ua2
  unfold JWTService.refreshTokens at hrun
  split at hrun
  · simp at hrun
  next payload hver =>
    have hsec : st.secret = JWT_REFRESH_SECRET := by
      by_contra hne
      simp [JWTService.verifyRefreshToken, hne] at hver
    have hv2 : ∀ m, JWTService.verifyRefreshToken (.wellFormed st) m
        = (if st.exp ≤ m then .error .expired else .ok st.payload) := by
      intro m
      simp [JWTService.verifyRefreshToken, hsec]
    split at hrun
    · simp at hrun
    next rec0 hfind =>
      have hrec0_mem := List.mem_of_find?_eq_some hfind
      have hrec0_pred := List.find?_some hfind
      rw [Bool.and_eq_true, beq_iff_eq] at hrec0_pred
      obtain ⟨hrec0_hash, hrec0_active⟩ := hrec0_pred
      simp only [JWTService.refreshAfterLookup] at hrun
      split at hrun
      · simp at hrun
      next hnotexp =>
        split at hrun
        next db2 e hctp => simp at hrun
        next db2 pair0 hctp =>
          simp only [JWTService.createTokenPair] at hctp
          split at hctp
          · simp at hctp
          next u huser =>
            split at hctp
            · simp at hctp
            next hconfl =>
              rw [Bool.not_eq_true] at hconfl
              simp only [JWTService.insertConflict, List.any_eq_false] at hconfl
              injection hctp with hdb2 hpair0
              injection hrun with hdb1 hpairok
              -- the deactivated image of rec0 is a stored row of the
              -- intermediate state, so the fresh token's digest differs
              -- from rec0's
              have hghash :
                  hashToken (.wellFormed (JWTService.generateRefreshToken n1))
                    ≠ hashToken (.wellFormed st) := by
                have hmem2 :
                    ({ rec0 with isActive := false, lastUsedAt := some n1 }
                      : RefreshTokenRow)
                      ∈ (JWTService.deactivateAndMarkUsed db rec0.id n1).refreshTokens := by
                  simp only [JWTService.deactivateAndMarkUsed]
                  refine List.mem_map.mpr ⟨rec0, hrec0_mem, ?_⟩
                  simp
                have h2 := hconfl _ hmem2
                rw [Bool.not_eq_true, Bool.or_eq_false_iff] at h2
                have h3 := h2.2
                rw [beq_eq_false_iff_ne] at h3
                intro hcontra
                apply h3
                show rec0.tokenHash = _
                rw [hrec0_hash]
                exact hcontra.symm
              have hnone : JWTService.findActiveByHash db1
                  (hashToken (.wellFormed st)) = none := by
                unfold JWTService.findActiveByHash
                rw [List.find?_eq_none]
                intro x hx
                rw [← hdb1] at hx
                simp only at hx
                rw [← hdb2] at hx
                simp only at hx
                rw [List.mem_append] at hx
                rcases hx with hx | hx
                · simp only [JWTService.deactivateAndMarkUsed] at hx
                  obtain ⟨r, hr, rfl⟩ := List.mem_map.mp hx
                  by_cases hid : (r.id == rec0.id) = true
                  · simp [hid]
                  · rw [Bool.not_eq_true] at hid
                    simp only [hid, Bool.false_eq_true, if_false]
                    rw [Bool.and_eq_true, beq_iff_eq]
                    rintro ⟨hxh, _⟩
                    by_cases hre : r = rec0
                    · rw [hre] at hid
                      simp at hid
                    · have hpw := huniq.forall
                        (fun a b hab => (Ne.symm hab : _)) hr hrec0_mem hre
                      exact hpw (hxh.trans hrec0_hash.symm)
                · rw [List.mem_singleton] at hx
                  subst hx
                  rw [Bool.and_eq_true, beq_iff_eq]
                  rintro ⟨hxh, _⟩
                  exact hghash hxh
              unfold JWTService.refreshTokens
              rw [hv2 n2]
              by_cases hx2 : st.exp ≤ n2
              · rw [if_pos hx2, if_pos hx2]
              · rw [if_neg hx2, if_neg hx2]
                simp only
                rw [hnone]

/-- Witness for `claim1_amended_rotation`: the concrete rotation on
`demoTokenDb` succeeds once; the immediate replay fails with the
NotFoundOrInactive-class error and leaves the state unchanged. -/
theorem claim1_amended_rotation_witness :
    JWTService.refreshTokens
        (JWTService.refreshTokens demoTokenDb 1 demoRefreshToken none none none).1
        2 demoRefreshToken none none none
      = ((JWTService.refreshTokens demoTokenDb 1 demoRefreshToken none none none).1,
          .error .notFoundOrInactive) := by
  have hrun : JWTService.refreshTokens demoTokenDb 1 demoRefreshToken none none none
      = ((JWTService.refreshTokens demoTokenDb 1 demoRefreshToken none none none).1,
          .ok { accessToken :=
                  JWTService.generateAccessToken "u1" "user@example.com" "USER" 1,
                refreshToken := JWTService.generateRefreshToken 1,
                expiresIn := 900 }) := by decide
  have h := claim1_amended_rotation demoTokenDb 1 (JWTService.generateRefreshToken 0)
    none none none _ _ (by simp [UniqueHashes, demoTokenDb]) hrun 2 none none none
  rw [if_neg (by decide)] at h
  exact h
